import Mathlib

set_option maxHeartbeats 1000000

/-!
Verification development for the Browser-In-codespaces traffic analyzer.

The repository captures HTTP exchanges through a mitmproxy addon
(`proxy_server.py` and `bin/traffic_analyzer.py`), persists them in a
SQLite `requests` table, and analyzes them (`copilot_agent.py`,
`copilot_api.py`).  This file gives a shallow embedding of the parts of
that code the claims are about and proves or refutes each claim.

Modelling conventions:
  * a SQLite row of the `requests` table is a `Row`; the whole table is a
    `Store` (`nextId` models the AUTOINCREMENT counter, which starts at 1);
  * the TEXT columns `headers` / `response_headers` always hold the result
    of `json.dumps` of a string-to-string mapping when written by the
    capture hooks, but historical data may be corrupted, so a column is
    modelled as `Option (List (String × String))`: `some m` is a valid
    JSON serialization of the mapping `m`, `none` is a malformed column on
    which `json.loads` raises;
  * wall-clock time is an integer parameter `now`; the two `time.time()`
    calls inside one Python statement are modelled as the same instant;
  * bytes are `List Nat`, and `bytes.decode("utf-8", errors="ignore")` is
    modelled by `utf8DecodeIgnore` below (invalid bytes are skipped, which
    is why the `except` fallbacks to base64 in both capture hooks are dead
    code: a decode with `errors="ignore"` does not raise).
-/

/-- Substring test on character lists: models Python `needle in hay`. -/
def isSubB (needle : List Char) : List Char → Bool
  | [] => needle.isEmpty
  | c :: rest => needle.isPrefixOf (c :: rest) || isSubB needle rest

/-- Python `str.lower()` over the characters of a string (ASCII traffic). -/
def lowerChars (s : List Char) : List Char := s.map Char.toLower

/-- Python `str.upper()` over the characters of a string. -/
def upperChars (s : List Char) : List Char := s.map Char.toUpper

/-- Python `str.lower()` on a whole string. -/
def lowerStr (s : String) : String := ⟨lowerChars s.data⟩

/-- Python `s.startswith(p)`. -/
def strStartsWith (s p : String) : Bool := p.data.isPrefixOf s.data

/-- A UTF-8 continuation byte. -/
def isCont (b : Nat) : Bool := 0x80 ≤ b && b < 0xC0

/-- Classify a multi-byte UTF-8 lead byte: `some (needed, acc)` with the
number of continuation bytes still expected and the initial accumulator. -/
def utf8Lead (b : Nat) : Option (Nat × Nat) :=
  if 0xC2 ≤ b && b ≤ 0xDF then some (1, b - 0xC0)
  else if 0xE0 ≤ b && b ≤ 0xEF then some (2, b - 0xE0)
  else if 0xF0 ≤ b && b ≤ 0xF4 then some (3, b - 0xF0)
  else none

/-- Scanner state machine: `needed` continuation bytes are still expected
for the code point accumulated in `acc` (`needed = 0`: between
characters).  A byte that cannot continue a pending sequence drops the
pending bytes and is re-examined as a fresh lead, as CPython's `ignore`
handler does. -/
def utf8Aux : Nat → Nat → List Nat → List Char
  | _, _, [] => []
  | needed, acc, b :: rest =>
    if needed != 0 && isCont b then
      let acc2 := acc * 64 + (b - 0x80)
      if needed == 1 then Char.ofNat acc2 :: utf8Aux 0 0 rest
      else utf8Aux (needed - 1) acc2 rest
    else if b < 0x80 then Char.ofNat b :: utf8Aux 0 0 rest
    else
      match utf8Lead b with
      | some (n, a) => utf8Aux n a rest
      | none => utf8Aux 0 0 rest

/-- Models CPython `bytes.decode("utf-8", errors="ignore")`: well-formed
sequences decode to their code point, bytes that cannot start or complete a
sequence are silently skipped and scanning resumes at the next byte.
(Overlong/surrogate range checks are elided; no claim depends on them.) -/
def utf8DecodeIgnore (l : List Nat) : List Char := utf8Aux 0 0 l

/-- Standard UTF-8 encoding of one character. -/
def utf8EncodeChar (c : Char) : List Nat :=
  let n := c.toNat
  if n < 0x80 then [n]
  else if n < 0x800 then [0xC0 + n / 64, 0x80 + n % 64]
  else if n < 0x10000 then
    [0xE0 + n / 4096, 0x80 + (n / 64) % 64, 0x80 + n % 64]
  else
    [0xF0 + n / 262144, 0x80 + (n / 4096) % 64, 0x80 + (n / 64) % 64,
      0x80 + n % 64]

/-- UTF-8 encoding of a character list. -/
def utf8Encode (s : List Char) : List Nat := (s.map utf8EncodeChar).flatten

/-- Python `d.get(k)` on a string-keyed dict (first matching key). -/
def dictGet (m : List (String × String)) (k : String) : Option String :=
  (m.find? (fun kv => kv.1 == k)).map (fun kv => kv.2)

/-- Python truthiness test `not d.get(k)`: key absent or empty value. -/
def falsyGet (m : List (String × String)) (k : String) : Bool :=
  match dictGet m k with
  | none => true
  | some v => v == ""

/-- One row of the SQLite `requests` table (schema in
`TrafficCapture.init_database`, identical in both capture files). -/
structure Row where
  id : Nat
  timestamp : Int
  method : String
  url : String
  host : String
  path : String
  headers : Option (List (String × String))
  body : List Char
  response_status : Option Int
  response_headers : Option (List (String × String))
  response_body : List Char
  duration : Int
  protocol : String
  analyzed : Bool
  notes : Option String
deriving DecidableEq

/-- The `requests` table: rows plus the AUTOINCREMENT counter. -/
structure Store where
  nextId : Nat
  rows : List Row
deriving DecidableEq

/-- A fresh database (AUTOINCREMENT starts handing out id 1). -/
def Store.empty : Store := ⟨1, []⟩

/-- The request side of a mitmproxy `HTTPFlow` (fields the hooks read). -/
structure HRequest where
  method : String
  url : String
  host : String
  path : String
  scheme : String
  headers : List (String × String)
  content : List Nat
deriving DecidableEq

/-- The response side of a mitmproxy `HTTPFlow`. -/
structure HResponse where
  status_code : Int
  headers : List (String × String)
  content : List Nat
deriving DecidableEq

/-- A mitmproxy flow as seen by the capture hooks; `start_time` is the
`flow.metadata['start_time']` entry written by the request hook (absent for
a flow whose request hook never ran, e.g. after a correlator restart). -/
structure HFlow where
  request : HRequest
  response : Option HResponse
  start_time : Option Int
deriving DecidableEq

namespace ProxyServer

/-- Embeds `TrafficCapture.request` (proxy_server.py): records the start time in
the flow's metadata. -/
def request (flow : HFlow) (now : Int) : HFlow :=
  { flow with start_time := some now }

/-- The row assembled and inserted by `TrafficCapture.response`
(proxy_server.py lines 70-128): request body decoded with
`errors="ignore"` and stored whole; response body decoded when strictly
under 1 MiB, replaced by a placeholder naming the byte count otherwise;
`timestamp` is `time.time()` at insert; `notes` is not in the INSERT
column list, so it is NULL. -/
def capturedRow (flow : HFlow) (now : Int) (rowId : Nat) : Row :=
  { id := rowId
    timestamp := now
    method := flow.request.method
    url := flow.request.url
    host := flow.request.host
    path := flow.request.path
    headers := some flow.request.headers
    body :=
      if flow.request.content.isEmpty then []
      else utf8DecodeIgnore flow.request.content
    response_status := flow.response.map (fun r => r.status_code)
    response_headers :=
      some (match flow.response with | some r => r.headers | none => [])
    response_body :=
      match flow.response with
      | some r =>
        if r.content.isEmpty then []
        else if r.content.length < 1024 * 1024 then utf8DecodeIgnore r.content
        else ("[Response too large: " ++ toString r.content.length ++
            " bytes]").data
      | none => []
    duration := now - flow.start_time.getD now
    protocol := flow.request.scheme
    analyzed := false
    notes := none }

/-- Embeds `TrafficCapture.response` (proxy_server.py): builds the row and
INSERTs it. -/
def response (db : Store) (flow : HFlow) (now : Int) : Store :=
  ⟨db.nextId + 1, db.rows ++ [capturedRow flow now db.nextId]⟩

/-- Embeds `ProxyManager.get_request_detail`: SELECT * FROM requests WHERE id=?. -/
def get_request_detail (db : Store) (request_id : Nat) : Option Row :=
  db.rows.find? (fun r => r.id == request_id)

/-- Result of `ProxyManager.replay_request` (proxy_server.py). -/
inductive ReplayResult where
  | notFound
  | ok (message url method : String)
deriving DecidableEq

/-- Embeds `ProxyManager.replay_request` (proxy_server.py lines 570-590): a single
SELECT, then a JSON response; no write statement is executed, so the store
is returned unchanged. -/
def replay_request (db : Store) (request_id : Nat) : ReplayResult × Store :=
  match db.rows.find? (fun r => r.id == request_id) with
  | none => (.notFound, db)
  | some row =>
    (.ok ("Request " ++ toString request_id ++ " replay initiated")
      row.url row.method, db)

end ProxyServer

namespace TrafficAnalyzer

/-- Embeds `TrafficCapture.request` (bin/traffic_analyzer.py). -/
def request (flow : HFlow) (now : Int) : HFlow :=
  { flow with start_time := some now }

/-- The row assembled and inserted by `TrafficCapture.response`
(bin/traffic_analyzer.py lines 67-117): both bodies are decoded with
`errors="ignore"` and stored whole (no size cap anywhere); a missing
response stores status 0 and headers `"{}"`; `notes` is again absent from
the INSERT column list. -/
def capturedRow (flow : HFlow) (now : Int) (rowId : Nat) : Row :=
  { id := rowId
    timestamp := now
    method := flow.request.method
    url := flow.request.url
    host := flow.request.host
    path := flow.request.path
    headers := some flow.request.headers
    body :=
      if flow.request.content.isEmpty then []
      else utf8DecodeIgnore flow.request.content
    response_status :=
      some (match flow.response with | some r => r.status_code | none => 0)
    response_headers :=
      some (match flow.response with | some r => r.headers | none => [])
    response_body :=
      match flow.response with
      | some r =>
        if r.content.isEmpty then [] else utf8DecodeIgnore r.content
      | none => []
    duration := now - flow.start_time.getD now
    protocol := flow.request.scheme
    analyzed := false
    notes := none }

/-- Embeds `TrafficCapture.response` (bin/traffic_analyzer.py). -/
def response (db : Store) (flow : HFlow) (now : Int) : Store :=
  ⟨db.nextId + 1, db.rows ++ [capturedRow flow now db.nextId]⟩

end TrafficAnalyzer

/-- Insert into a timestamp-descending list; `sortByTsDesc` models
`ORDER BY timestamp DESC`. -/
def insertTsDesc (r : Row) : List Row → List Row
  | [] => [r]
  | x :: xs =>
    if x.timestamp < r.timestamp then r :: x :: xs else x :: insertTsDesc r xs

/-- Embeds `ORDER BY timestamp DESC` as an insertion sort. -/
def sortByTsDesc (rows : List Row) : List Row := rows.foldr insertTsDesc []

/-- Insert into a timestamp-ascending list; `sortByTsAsc` models
`ORDER BY timestamp`. -/
def insertTsAsc (r : Row) : List Row → List Row
  | [] => [r]
  | x :: xs =>
    if r.timestamp ≤ x.timestamp then r :: x :: xs else x :: insertTsAsc r xs

/-- Embeds `ORDER BY timestamp` (ascending) as an insertion sort. -/
def sortByTsAsc (rows : List Row) : List Row := rows.foldr insertTsAsc []

/-- Failures raised by the analysis code: `ValueError` for a missing id
(copilot_agent.py line 43) and `json.JSONDecodeError` escaping from
`json.loads` on a malformed stored column (lines 53-54). -/
inductive AgentError where
  | notFound
  | jsonDecodeError
deriving DecidableEq

/-- The `for row in rows: entries.append(build(row))` loops of the two HAR
exports: the first failing row aborts the whole export (the surrounding
`try` turns it into an error response). -/
def buildEntries {β : Type} (f : Row → Except AgentError β) :
    List Row → Except AgentError (List β)
  | [] => .ok []
  | r :: rs =>
    match f r with
    | .error e => .error e
    | .ok e =>
      match buildEntries f rs with
      | .error e2 => .error e2
      | .ok es => .ok (e :: es)

namespace CopilotAgent

/-- Sensitive keywords scanned for in the URL (copilot_agent.py line 97). -/
def sensitive_keywords : List String :=
  ["password", "token", "secret", "api_key", "apikey"]

/-- SQL keyword patterns (copilot_agent.py line 123), trailing spaces
included. -/
def sql_patterns : List String :=
  ["SELECT ", "INSERT ", "UPDATE ", "DELETE ", "DROP ", "UNION "]

/-- XSS indicator patterns (copilot_agent.py line 128). -/
def xss_patterns : List String :=
  ["<script", "javascript:", "onerror=", "onload="]

/-- Embeds `CopilotAgent._check_security` (copilot_agent.py lines 91-132).  The
three security-header lookups use `response_headers.get(...)` with the
exact lowercase header name on the case-preserved stored mapping. -/
def check_security (url protocol : String) (body : List Char)
    (headers response_headers : List (String × String)) : List String :=
  let url_lower := lowerChars url.data
  (if sensitive_keywords.any (fun kw => isSubB kw.data url_lower) then
    ["⚠️ Sensitive data detected in URL (should use POST body instead)"]
  else [])
  ++ (if falsyGet response_headers "strict-transport-security" then
    ["Missing HSTS header (Strict-Transport-Security)"]
  else [])
  ++ (if falsyGet response_headers "x-content-type-options" then
    ["Missing X-Content-Type-Options header"]
  else [])
  ++ (if falsyGet response_headers "x-frame-options" then
    ["Missing X-Frame-Options header (clickjacking protection)"]
  else [])
  ++ (if protocol == "http" then
    ["🔓 Insecure HTTP protocol (should use HTTPS)"]
  else [])
  ++ (if headers.any (fun kv => lowerStr kv.1 == "authorization") &&
        strStartsWith
          ((dictGet headers "Authorization").getD
            ((dictGet headers "authorization").getD "")) "Basic " then
    ["⚠️ Basic authentication detected (consider using OAuth or JWT)"]
  else [])
  ++ (if sql_patterns.any (fun p => isSubB p.data (upperChars body)) then
    ["🚨 Potential SQL injection attempt detected"]
  else [])
  ++ (if xss_patterns.any (fun p => isSubB p.data (lowerChars body)) then
    ["🚨 Potential XSS payload detected"]
  else [])

/-- Embeds `CopilotAgent._check_performance` (copilot_agent.py lines 134-150). -/
def check_performance (req : Row) : List String :=
  (if req.duration > 5 then
    ["⏱️ Very slow request (" ++ toString req.duration ++
      "s) - investigate server performance"]
  else if req.duration > 2 then
    ["⏱️ Slow request (" ++ toString req.duration ++ "s) - consider optimization"]
  else [])
  ++ (if req.response_body.length > 1000000 then
    ["📦 Large response size (" ++ toString req.response_body.length ++
      " bytes) - consider pagination or compression"]
  else [])

/-- Embeds `CopilotAgent._check_best_practices` (copilot_agent.py lines 152-173). -/
def check_best_practices (req : Row)
    (headers response_headers : List (String × String)) : List String :=
  (if req.method == "GET" && falsyGet response_headers "cache-control" &&
      falsyGet response_headers "etag" then
    ["💡 Consider adding cache headers for GET requests"]
  else [])
  ++ (if !response_headers.any (fun kv => lowerStr kv.1 == "content-encoding") then
    ["💡 Response is not compressed - enable gzip/brotli compression"]
  else [])
  ++ (if isSubB "/api/".data req.path.data &&
        !(["/v1/", "/v2/", "/v3/"].any (fun v => isSubB v.data req.path.data)) then
    ["💡 API endpoint should include version number"]
  else [])
  ++ (if (dictGet response_headers "access-control-allow-origin").getD "" == "*" then
    ["⚠️ CORS allows all origins - consider restricting to specific domains"]
  else [])

/-- Embeds `CopilotAgent._generate_summary` (copilot_agent.py lines 175-204);
the Python guard `if status:` makes a 0 status skip the status phrase. -/
def generate_summary (req : Row)
    (vulnerabilities recommendations : List String) : String :=
  let base := req.method ++ " request to " ++ req.url ++ " "
  let withStatus :=
    match req.response_status with
    | some status =>
      if status == 0 then base
      else if 200 ≤ status && status < 300 then
        base ++ "✅ succeeded (" ++ toString status ++ ") "
      else if 300 ≤ status && status < 400 then
        base ++ "↪️ redirected (" ++ toString status ++ ") "
      else if 400 ≤ status && status < 500 then
        base ++ "⚠️ client error (" ++ toString status ++ ") "
      else base ++ "❌ server error (" ++ toString status ++ ") "
    | none => base
  let withDuration :=
    withStatus ++ "in " ++ toString (req.duration * 1000) ++ "ms. "
  let withVulns :=
    if vulnerabilities.isEmpty then withDuration ++ "No security issues detected. "
    else withDuration ++ "Found " ++ toString vulnerabilities.length ++
      " security issues. "
  if recommendations.isEmpty then withVulns
  else withVulns ++ toString recommendations.length ++
    " optimization suggestions available."

/-- The `insights` mapping of `analyze_request` (copilot_agent.py 73-80). -/
structure Insights where
  method : String
  status_code : Option Int
  duration_ms : Int
  has_auth : Bool
  content_type : String
  size_bytes : Nat
deriving DecidableEq

/-- The `RequestAnalysis` dataclass (copilot_agent.py lines 13-21). -/
structure RequestAnalysis where
  request_id : Nat
  security_score : Int
  vulnerabilities : List String
  recommendations : List String
  summary : String
  insights : Insights
deriving DecidableEq

/-- Embeds `CopilotAgent.analyze_request` (copilot_agent.py lines 30-89): fetch
the row, `json.loads` both header columns (raising on malformed data),
run the three rule sets, and score 100 minus 10 per security finding,
floored at 0 by `max(0, security_score)`. -/
def analyze_request (db : Store) (request_id : Nat) :
    Except AgentError RequestAnalysis :=
  match db.rows.find? (fun r => r.id == request_id) with
  | none => .error .notFound
  | some req =>
    match req.headers, req.response_headers with
    | some headers, some response_headers =>
      let security_issues :=
        check_security req.url req.protocol req.body headers response_headers
      let security_score : Int := 100 - 10 * (security_issues.length : Int)
      let recommendations :=
        check_performance req ++ check_best_practices req headers response_headers
      .ok
        { request_id := request_id
          security_score := max 0 security_score
          vulnerabilities := security_issues
          recommendations := recommendations
          summary := generate_summary req security_issues recommendations
          insights :=
            { method := req.method
              status_code := req.response_status
              duration_ms := req.duration * 1000
              has_auth := headers.any
                (fun kv => isSubB "auth".data (lowerChars kv.1.data))
              content_type := (dictGet headers "content-type").getD "unknown"
              size_bytes := req.body.length } }
    | _, _ => .error .jsonDecodeError

end CopilotAgent

namespace CopilotAPI

/-- Response of `CopilotAPIServer.replay_request`: 404, a 500 from the
surrounding `try` (e.g. `json.loads` failing on the stored headers), or
the echoed request data. -/
inductive ApiReplayResult where
  | notFound
  | serverError
  | ok (method url : String) (headers : List (String × String)) (body : List Char)
deriving DecidableEq

/-- Embeds `CopilotAPIServer.replay_request` (copilot_api.py lines 289-330): one
SELECT and a JSON response; no write statement is executed, so the store
comes back unchanged. -/
def replay_request (db : Store) (request_id : Nat) : ApiReplayResult × Store :=
  match db.rows.find? (fun r => r.id == request_id) with
  | none => (.notFound, db)
  | some row =>
    match row.headers with
    | none => (.serverError, db)
    | some stored_headers => (.ok row.method row.url stored_headers row.body, db)

/-- The JSON body accepted by `modify_and_replay` (url/headers/body keys
are each optional). -/
structure Modifications where
  url : Option String
  headers : Option (List (String × String))
  body : Option (List Char)
deriving DecidableEq

/-- The `original` object echoed by `modify_and_replay`. -/
structure OriginalRequest where
  url : String
  headers : List (String × String)
  body : List Char
deriving DecidableEq

/-- The `modified_request` object built by `modify_and_replay`. -/
structure ModifiedRequest where
  method : String
  url : String
  headers : List (String × String)
  body : List Char
deriving DecidableEq

/-- Response of `CopilotAPIServer.modify_and_replay`. -/
inductive ApiModifyResult where
  | notFound
  | serverError
  | ok (original : OriginalRequest) (modified : ModifiedRequest)
deriving DecidableEq

/-- Embeds `CopilotAPIServer.modify_and_replay` (copilot_api.py lines 332-381):
one SELECT, defaulting of the modification keys (note Python evaluates
`modifications.get('headers', json.loads(...))`'s default eagerly, so a
malformed stored column still raises even when a headers override is
supplied), and a JSON response; again no write statement. -/
def modify_and_replay (db : Store) (request_id : Nat) (mods : Modifications) :
    ApiModifyResult × Store :=
  match db.rows.find? (fun r => r.id == request_id) with
  | none => (.notFound, db)
  | some row =>
    match row.headers with
    | none => (.serverError, db)
    | some stored_headers =>
      (.ok ⟨row.url, stored_headers, row.body⟩
        ⟨row.method, mods.url.getD row.url, mods.headers.getD stored_headers,
          mods.body.getD row.body⟩, db)

/-- One HAR entry as built by `CopilotAPIServer.export_har` (copilot_api.py
lines 420-445), nested dicts flattened into named fields. -/
structure HarEntry where
  startedDateTime : String
  time : Int
  method : String
  url : String
  request_headers : List (String × String)
  postData : List Char
  status : Int
  response_headers : List (String × String)
  content : List Char
deriving DecidableEq

/-- The `{log: {version, entries}}` envelope. -/
structure HarLog (β : Type) where
  version : String
  entries : List β
deriving DecidableEq

/-- Building one entry: `json.loads` of both header columns can raise. -/
def mkHarEntry (row : Row) : Except AgentError HarEntry :=
  match row.headers, row.response_headers with
  | some h, some rh =>
    .ok { startedDateTime := toString row.timestamp
          time := row.duration * 1000
          method := row.method
          url := row.url
          request_headers := h
          postData := row.body
          status := row.response_status.getD 0
          response_headers := rh
          content := row.response_body }
  | _, _ => .error .jsonDecodeError

/-- Embeds `CopilotAPIServer.export_har` (copilot_api.py lines 407-458): SELECT *
ORDER BY timestamp (ascending, no filter, no limit), one entry per row. -/
def export_har (db : Store) : Except AgentError (HarLog HarEntry) :=
  match buildEntries mkHarEntry (sortByTsAsc db.rows) with
  | .error e => .error e
  | .ok entries => .ok ⟨"1.2", entries⟩

/-- One element of `high_risk_requests` (copilot_api.py lines 118-122). -/
structure HighRiskEntry where
  request_id : Nat
  score : Int
  issues : List String
deriving DecidableEq

/-- The JSON object returned by `security_scan` (copilot_api.py 124-130). -/
structure ScanResult where
  total_issues : Nat
  unique_issues : Nat
  high_risk_requests : List HighRiskEntry
deriving DecidableEq

/-- The scan window: `SELECT id FROM requests ORDER BY timestamp DESC
LIMIT 100`. -/
def scanRows (db : Store) : List Row := (sortByTsDesc db.rows).take 100

/-- The scan loop: `analyze_request` on each selected id; the first raised
exception aborts the whole scan (handled by the surrounding `try`). -/
def analyzeAll (db : Store) :
    List Row → Except AgentError (List CopilotAgent.RequestAnalysis)
  | [] => .ok []
  | r :: rs =>
    match CopilotAgent.analyze_request db r.id with
    | .error e => .error e
    | .ok a =>
      match analyzeAll db rs with
      | .error e => .error e
      | .ok rest => .ok (a :: rest)

/-- Embeds `CopilotAPIServer.security_scan` (copilot_api.py lines 93-135):
aggregates all vulnerabilities and collects the requests whose score is
strictly below 70. -/
def security_scan (db : Store) : Except AgentError ScanResult :=
  match analyzeAll db (scanRows db) with
  | .error e => .error e
  | .ok analyses =>
    let security_issues := analyses.foldl
      (fun acc a => if a.vulnerabilities.isEmpty then acc
        else acc ++ a.vulnerabilities) []
    let high_risk := (analyses.filter (fun a => a.security_score < 70)).map
      (fun a => HighRiskEntry.mk a.request_id a.security_score a.vulnerabilities)
    .ok ⟨security_issues.length, security_issues.dedup.length, high_risk⟩

end CopilotAPI

namespace TrafficAnalyzer

/-- One HAR entry as built by `TrafficAnalyzerCLI.export_har`
(bin/traffic_analyzer.py lines 399-423). -/
structure TAHarEntry where
  startedDateTime : String
  time : Int
  method : String
  url : String
  request_headers : List (String × String)
  bodySize : Nat
  status : Option Int
  response_headers : List (String × String)
  content_size : Nat
deriving DecidableEq

/-- Embeds `_host_clause_and_params(None)` applied as a row filter: with the
zybooks-only flag set it keeps rows whose host contains "zybooks". -/
def hostFilter (only_zybooks : Bool) (rows : List Row) : List Row :=
  if only_zybooks then rows.filter (fun r => isSubB "zybooks".data r.host.data)
  else rows

/-- The rows selected by `TrafficAnalyzerCLI.export_har`: WHERE host
filter, ORDER BY timestamp DESC, LIMIT. -/
def selectedRows (db : Store) (only_zybooks : Bool) (limit : Nat) : List Row :=
  (sortByTsDesc (hostFilter only_zybooks db.rows)).take limit

/-- Building one CLI HAR entry; `json.loads` of either column can raise. -/
def mkHarEntry (row : Row) : Except AgentError TAHarEntry :=
  match row.headers, row.response_headers with
  | some h, some rh =>
    .ok { startedDateTime := toString row.timestamp
          time := row.duration * 1000
          method := row.method
          url := row.url
          request_headers := h
          bodySize := row.body.length
          status := row.response_status
          response_headers := rh
          content_size := row.response_body.length }
  | _, _ => .error .jsonDecodeError

/-- Embeds `TrafficAnalyzerCLI.export_har` (bin/traffic_analyzer.py 378-428). -/
def export_har (db : Store) (only_zybooks : Bool) (limit : Nat) :
    Except AgentError (CopilotAPI.HarLog TAHarEntry) :=
  match buildEntries mkHarEntry (selectedRows db only_zybooks limit) with
  | .error e => .error e
  | .ok entries => .ok ⟨"1.2", entries⟩

end TrafficAnalyzer

section Lemmas

/-- The decoder never produces more characters than it consumed bytes. -/
theorem utf8Aux_length_le :
    ∀ (l : List Nat) (needed acc : Nat), (utf8Aux needed acc l).length ≤ l.length := by
  intro l
  induction l with
  | nil => intro needed acc; simp [utf8Aux]
  | cons b rest ih =>
    intro needed acc
    simp only [utf8Aux]
    repeat' split
    all_goals simp only [List.length_cons]
    · exact Nat.succ_le_succ (ih 0 0)
    · exact Nat.le_succ_of_le (ih _ _)
    · exact Nat.succ_le_succ (ih 0 0)
    · exact Nat.le_succ_of_le (ih _ _)
    · exact Nat.le_succ_of_le (ih 0 0)

theorem utf8DecodeIgnore_length_le (l : List Nat) :
    (utf8DecodeIgnore l).length ≤ l.length :=
  utf8Aux_length_le l 0 0

/-- On pure ASCII input the decoder keeps every byte. -/
theorem utf8Aux_ascii :
    ∀ (l : List Nat), (∀ b ∈ l, b < 0x80) → utf8Aux 0 0 l = l.map Char.ofNat := by
  intro l
  induction l with
  | nil => intro; rfl
  | cons b rest ih =>
    intro h
    have hb : b < 0x80 := h b (List.mem_cons_self b rest)
    have hrest := ih (fun x hx => h x (List.mem_cons_of_mem b hx))
    simp [utf8Aux, hb, hrest]

theorem utf8DecodeIgnore_ascii (l : List Nat) (h : ∀ b ∈ l, b < 0x80) :
    utf8DecodeIgnore l = l.map Char.ofNat :=
  utf8Aux_ascii l h

theorem utf8DecodeIgnore_replicate_length (n b : Nat) (hb : b < 0x80) :
    (utf8DecodeIgnore (List.replicate n b)).length = n := by
  rw [utf8DecodeIgnore_ascii]
  · simp
  · intro x hx
    rw [List.eq_of_mem_replicate hx]
    exact hb

/-- Embeds `find?` skips over a prefix containing no match. -/
theorem find?_append_of_none {α : Type} {p : α → Bool} {l₁ l₂ : List α}
    (h : l₁.find? p = none) : (l₁ ++ l₂).find? p = l₂.find? p := by
  induction l₁ with
  | nil => rfl
  | cons x xs ih =>
    rw [List.find?_eq_none] at h
    have hx : ¬p x = true := h x (List.mem_cons_self x xs)
    have hxs : xs.find? p = none := by
      rw [List.find?_eq_none]
      exact fun y hy => h y (List.mem_cons_of_mem x hy)
    rw [List.cons_append, List.find?_cons_of_neg _ hx]
    exact ih hxs

/-- A successful entry-building loop produces one entry per row. -/
theorem buildEntries_length {β : Type} {f : Row → Except AgentError β} :
    ∀ {rows : List Row} {es : List β},
      buildEntries f rows = .ok es → es.length = rows.length := by
  intro rows
  induction rows with
  | nil =>
    intro es h
    simp only [buildEntries, Except.ok.injEq] at h
    subst h; rfl
  | cons r rs ih =>
    intro es h
    simp only [buildEntries] at h
    cases hf : f r with
    | error e => rw [hf] at h; cases h
    | ok e =>
      rw [hf] at h
      cases hb : buildEntries f rs with
      | error e2 => rw [hb] at h; cases h
      | ok es2 =>
        rw [hb] at h
        simp only [Except.ok.injEq] at h
        subst h
        simp [ih hb]

theorem length_insertTsDesc (r : Row) :
    ∀ l : List Row, (insertTsDesc r l).length = l.length + 1 := by
  intro l
  induction l with
  | nil => rfl
  | cons x xs ih =>
    simp only [insertTsDesc]
    split
    · rfl
    · simp [ih]

theorem length_sortByTsDesc (l : List Row) : (sortByTsDesc l).length = l.length := by
  induction l with
  | nil => rfl
  | cons x xs ih =>
    show (insertTsDesc x (sortByTsDesc xs)).length = xs.length + 1
    rw [length_insertTsDesc, ih]

theorem length_insertTsAsc (r : Row) :
    ∀ l : List Row, (insertTsAsc r l).length = l.length + 1 := by
  intro l
  induction l with
  | nil => rfl
  | cons x xs ih =>
    simp only [insertTsAsc]
    split
    · rfl
    · simp [ih]

theorem length_sortByTsAsc (l : List Row) : (sortByTsAsc l).length = l.length := by
  induction l with
  | nil => rfl
  | cons x xs ih =>
    show (insertTsAsc x (sortByTsAsc xs)).length = xs.length + 1
    rw [length_insertTsAsc, ih]

/-- Whenever `analyze_request` returns a result, its id echoes the query,
its score is exactly 100 minus 10 per emitted security finding floored at
0, and its vulnerability list is the `_check_security` output of the row. -/
theorem analyze_request_ok_inv {db : Store} {rid : Nat}
    {a : CopilotAgent.RequestAnalysis}
    (h : CopilotAgent.analyze_request db rid = .ok a) :
    a.request_id = rid ∧
    a.security_score = max 0 (100 - 10 * (a.vulnerabilities.length : Int)) := by
  unfold CopilotAgent.analyze_request at h
  split at h
  · simp at h
  · split at h
    · simp only [Except.ok.injEq] at h
      subst h
      exact ⟨rfl, rfl⟩
    · simp at h

/-- The score formula drops below 70 exactly at four findings. -/
theorem score_lt_70_iff (n : Nat) :
    max 0 (100 - 10 * (n : Int)) < 70 ↔ 4 ≤ n := by
  rcases le_total (0 : Int) (100 - 10 * (n : Int)) with h | h
  · rw [max_eq_right h]; omega
  · rw [max_eq_left h]; omega

/-- Membership in one conditional finding block. -/
theorem mem_flag {c : Bool} {m x : String} :
    (x ∈ if c then [m] else []) ↔ (c = true ∧ x = m) := by
  cases c <;> simp

end Lemmas

section Fixtures

/-- The exchange of the spec's §8 scenario: GET
`http://example.com/login?password=123` over http with no response
security headers. -/
def scenarioFlow : HFlow :=
  { request :=
      { method := "GET"
        url := "http://example.com/login?password=123"
        host := "example.com"
        path := "/login?password=123"
        scheme := "http"
        headers := []
        content := [] }
    response := some { status_code := 200, headers := [], content := [] }
    start_time := some 0 }

/-- A store holding only the §8 scenario exchange (captured at time 0, so
its row id is 1). -/
def scenarioStore : Store := ProxyServer.response Store.empty scenarioFlow 0

/-- An https exchange whose response carries all three security headers
under their canonical (non-lowercase) names. -/
def canonicalHeaderFlow : HFlow :=
  { request :=
      { method := "GET"
        url := "https://example.com/"
        host := "example.com"
        path := "/"
        scheme := "https"
        headers := []
        content := [] }
    response := some
      { status_code := 200
        headers := [("Strict-Transport-Security", "max-age=63072000"),
          ("X-Content-Type-Options", "nosniff"), ("X-Frame-Options", "DENY")]
        content := [] }
    start_time := some 0 }

/-- Store holding only the canonical-header exchange. -/
def canonicalHeaderStore : Store :=
  ProxyServer.response Store.empty canonicalHeaderFlow 0

/-- A stored row whose `headers` column is malformed JSON. -/
def malformedRow : Row :=
  { id := 1, timestamp := 0, method := "GET", url := "http://e.com/"
    host := "e.com", path := "/", headers := none, body := []
    response_status := some 200, response_headers := some []
    response_body := [], duration := 0, protocol := "http"
    analyzed := false, notes := none }

/-- Store holding only the malformed-headers row. -/
def malformedStore : Store := ⟨2, [malformedRow]⟩

/-- A flow whose response arrives with no recorded start time (unknown
flow id). -/
def orphanFlow : HFlow :=
  { request :=
      { method := "GET", url := "http://e.com/", host := "e.com", path := "/"
        scheme := "http", headers := [], content := [] }
    response := some { status_code := 204, headers := [], content := [] }
    start_time := none }

/-- A flow whose request hook ran at time 5 (the response will be
processed at time 9). -/
def timedFlow : HFlow :=
  { request :=
      { method := "GET", url := "http://e.com/", host := "e.com", path := "/"
        scheme := "http", headers := [], content := [] }
    response := some { status_code := 200, headers := [], content := [] }
    start_time := some 5 }

end Fixtures

/-- C1: for every stored exchange, `analyze_request` returns security
score `max 0 (100 - 10·n)` where `n` is the number of security findings
it emits; in the §8 scenario (GET http://example.com/login?password=123
over http, no response security headers) n = 5 and the score is 50. -/
theorem C1_security_score_formula :
    (∀ (db : Store) (rid : Nat),
      match CopilotAgent.analyze_request db rid with
      | .ok a => a.security_score =
          max 0 (100 - 10 * (a.vulnerabilities.length : Int))
      | .error _ => True)
    ∧ (CopilotAgent.analyze_request scenarioStore 1).toOption.map
        (fun a => (a.security_score, a.vulnerabilities.length)) = some (50, 5) := by
  constructor
  · intro db rid
    cases h : CopilotAgent.analyze_request db rid with
    | ok a => exact (analyze_request_ok_inv h).2
    | error e => trivial
  · decide

/-- C2 counterexample: an exchange whose response carries all three
security headers under their canonical casing is still given all three
missing-header findings, because `_check_security` looks the headers up
case-sensitively under their lowercase names while stored keys are
case-preserved. -/
theorem C2_counterexample :
    (ProxyServer.capturedRow canonicalHeaderFlow 0 1).response_headers =
      some [("Strict-Transport-Security", "max-age=63072000"),
        ("X-Content-Type-Options", "nosniff"), ("X-Frame-Options", "DENY")]
    ∧ (CopilotAgent.analyze_request canonicalHeaderStore 1).toOption.map
        (fun a => a.vulnerabilities) =
      some ["Missing HSTS header (Strict-Transport-Security)",
        "Missing X-Content-Type-Options header",
        "Missing X-Frame-Options header (clickjacking protection)"] := by
  decide

/-- C2 (amended): each of the three missing-header findings is emitted
exactly when the stored response headers have no entry whose key is
EXACTLY the lowercase header name with a non-empty value; a header stored
under any other casing (e.g. canonical `Strict-Transport-Security`) does
not suppress the finding. -/
theorem C2_missing_header_flags (url protocol : String) (body : List Char)
    (headers response_headers : List (String × String)) :
    (("Missing HSTS header (Strict-Transport-Security)" ∈
        CopilotAgent.check_security url protocol body headers response_headers) ↔
      falsyGet response_headers "strict-transport-security" = true)
    ∧ (("Missing X-Content-Type-Options header" ∈
        CopilotAgent.check_security url protocol body headers response_headers) ↔
      falsyGet response_headers "x-content-type-options" = true)
    ∧ (("Missing X-Frame-Options header (clickjacking protection)" ∈
        CopilotAgent.check_security url protocol body headers response_headers) ↔
      falsyGet response_headers "x-frame-options" = true) := by
  unfold CopilotAgent.check_security
  refine ⟨?_, ?_, ?_⟩ <;> simp [mem_flag]

/-- C5 counterexample: analyzing a stored exchange whose `headers` column
is malformed JSON propagates the parse failure instead of treating the
column as an empty mapping. -/
theorem C5_counterexample :
    malformedRow.headers = none ∧
    CopilotAgent.analyze_request malformedStore 1 = .error .jsonDecodeError :=
  ⟨rfl, rfl⟩

/-- C5 (amended): for every stored exchange whose `headers` or
`response_headers` column is malformed, `analyze_request` raises the JSON
parse failure to its caller; it never substitutes an empty mapping. -/
theorem C5_malformed_column_raises (db : Store) (rid : Nat) (row : Row)
    (hf : db.rows.find? (fun r => r.id == rid) = some row)
    (hmal : row.headers = none ∨ row.response_headers = none) :
    CopilotAgent.analyze_request db rid = .error .jsonDecodeError := by
  unfold CopilotAgent.analyze_request
  rcases hmal with h | h
  · cases hrh : row.response_headers <;> simp [hf, h, hrh]
  · cases hh : row.headers <;> simp [hf, h, hh]

/-- C5 witness: the amended theorem applied to the malformed store. -/
theorem C5_witness :
    (malformedStore.rows.find? (fun r => r.id == 1) = some malformedRow
      ∧ (malformedRow.headers = none ∨ malformedRow.response_headers = none))
    ∧ CopilotAgent.analyze_request malformedStore 1 = .error .jsonDecodeError :=
  ⟨⟨by decide, Or.inl rfl⟩,
    C5_malformed_column_raises malformedStore 1 malformedRow (by decide)
      (Or.inl rfl)⟩

/-- C6 counterexample: a response for an unknown flow id is persisted
with zero duration, but its `notes` column is NULL — the INSERT never
writes the annotation the claim requires. -/
theorem C6_counterexample :
    orphanFlow.start_time = none
    ∧ (ProxyServer.capturedRow orphanFlow 7 1).duration = 0
    ∧ (ProxyServer.capturedRow orphanFlow 7 1).notes = none
    ∧ ProxyServer.response Store.empty orphanFlow 7 =
        ⟨2, [ProxyServer.capturedRow orphanFlow 7 1]⟩ := by
  decide

/-- C6 (amended): in both capture paths, a response whose flow has no
recorded start time is still persisted and its duration falls back to
zero, but the stored `notes` column is NULL — no annotation records the
anomaly. -/
theorem C6_unknown_flow_fallback (db : Store) (flow : HFlow) (now : Int)
    (h : flow.start_time = none) :
    (ProxyServer.capturedRow flow now db.nextId).duration = 0
    ∧ (ProxyServer.capturedRow flow now db.nextId).notes = none
    ∧ ProxyServer.response db flow now =
        ⟨db.nextId + 1, db.rows ++ [ProxyServer.capturedRow flow now db.nextId]⟩
    ∧ (TrafficAnalyzer.capturedRow flow now db.nextId).duration = 0
    ∧ (TrafficAnalyzer.capturedRow flow now db.nextId).notes = none
    ∧ TrafficAnalyzer.response db flow now =
        ⟨db.nextId + 1, db.rows ++ [TrafficAnalyzer.capturedRow flow now db.nextId]⟩ := by
  refine ⟨?_, rfl, rfl, ?_, rfl, rfl⟩
  · show now - flow.start_time.getD now = 0
    rw [h, Option.getD_none]
    omega
  · show now - flow.start_time.getD now = 0
    rw [h, Option.getD_none]
    omega

/-- C6 witness: the amended theorem applied to the orphan flow at time 7
over the empty store. -/
theorem C6_witness :
    orphanFlow.start_time = none
    ∧ ((ProxyServer.capturedRow orphanFlow 7 1).duration = 0
      ∧ (ProxyServer.capturedRow orphanFlow 7 1).notes = none) :=
  ⟨rfl,
    ⟨(C6_unknown_flow_fallback Store.empty orphanFlow 7 rfl).1,
      (C6_unknown_flow_fallback Store.empty orphanFlow 7 rfl).2.1⟩⟩

/-- C7 counterexample: a flow whose request started at time 5 and whose
response is processed at time 9 is stored with timestamp 9 (the insert
time), not the request-start time 5. -/
theorem C7_counterexample :
    timedFlow.start_time = some 5
    ∧ (ProxyServer.capturedRow timedFlow 9 1).timestamp = 9
    ∧ (9 : Int) ≠ 5 := by
  decide

/-- C7 (amended): in both capture paths the stored `timestamp` is the
`time.time()` taken while inserting (response processing time); the
request-start time recorded in the flow metadata only enters the
`duration` column. -/
theorem C7_timestamp_is_insert_time (flow : HFlow) (now : Int) (rowId : Nat) :
    (ProxyServer.capturedRow flow now rowId).timestamp = now
    ∧ (TrafficAnalyzer.capturedRow flow now rowId).timestamp = now :=
  ⟨rfl, rfl⟩

/-- C9: despite their names, the three replay entry points only read: for
every store, id and modification set, the store after
`CopilotAPIServer.replay_request`, `CopilotAPIServer.modify_and_replay`
and `ProxyManager.replay_request` is exactly the store before. -/
theorem C9_replay_is_readonly (db : Store) (rid : Nat)
    (mods : CopilotAPI.Modifications) :
    (CopilotAPI.replay_request db rid).2 = db
    ∧ (CopilotAPI.modify_and_replay db rid mods).2 = db
    ∧ (ProxyServer.replay_request db rid).2 = db := by
  refine ⟨?_, ?_, ?_⟩
  · cases hf : db.rows.find? (fun r => r.id == rid) with
    | none => simp [CopilotAPI.replay_request, hf]
    | some row =>
      cases hh : row.headers <;> simp [CopilotAPI.replay_request, hf, hh]
  · cases hf : db.rows.find? (fun r => r.id == rid) with
    | none => simp [CopilotAPI.modify_and_replay, hf]
    | some row =>
      cases hh : row.headers <;> simp [CopilotAPI.modify_and_replay, hf, hh]
  · cases hf : db.rows.find? (fun r => r.id == rid) with
    | none => simp [ProxyServer.replay_request, hf]
    | some row => simp [ProxyServer.replay_request, hf]

/-- A flow carrying a request body one byte over the 1 MiB cap (all
ASCII, so the decoded text has the same length). -/
def bigRequestFlow : HFlow :=
  { request :=
      { method := "POST", url := "http://e.com/up", host := "e.com"
        path := "/up", scheme := "http", headers := []
        content := List.replicate (1024 * 1024 + 1) 65 }
    response := some { status_code := 200, headers := [], content := [] }
    start_time := some 0 }

/-- A flow whose response body is exactly 1 MiB (at the cap). -/
def bigResponseFlow : HFlow :=
  { request :=
      { method := "GET", url := "http://e.com/big", host := "e.com"
        path := "/big", scheme := "http", headers := [], content := [] }
    response := some
      { status_code := 200, headers := []
        content := List.replicate (1024 * 1024) 66 }
    start_time := some 0 }

/-- The request body the proxy hook stores for a flow with a non-empty
request body. -/
theorem capturedRow_body_of_ne_nil (flow : HFlow) (now : Int) (rowId : Nat)
    (h : flow.request.content.isEmpty = false) :
    (ProxyServer.capturedRow flow now rowId).body =
      utf8DecodeIgnore flow.request.content := by
  unfold ProxyServer.capturedRow
  simp [h]

/-- The response body the proxy hook stores for a non-empty response body
under the cap. -/
theorem capturedRow_response_body_small (flow : HFlow) (r : HResponse)
    (now : Int) (rowId : Nat) (hresp : flow.response = some r)
    (hne : r.content.isEmpty = false)
    (hsmall : r.content.length < 1024 * 1024) :
    (ProxyServer.capturedRow flow now rowId).response_body =
      utf8DecodeIgnore r.content := by
  unfold ProxyServer.capturedRow
  simp [hresp, hne, hsmall]

/-- C3 counterexample: the proxy capture hook persists a request body one
byte over the 1 MiB cap at its full length — request bodies are not
capped, only the response body is. -/
theorem C3_counterexample :
    ProxyServer.response Store.empty bigRequestFlow 0 =
      ⟨2, [ProxyServer.capturedRow bigRequestFlow 0 1]⟩
    ∧ (ProxyServer.capturedRow bigRequestFlow 0 1).body.length =
        1024 * 1024 + 1
    ∧ 1024 * 1024 < 1024 * 1024 + 1 := by
  refine ⟨rfl, ?_, by omega⟩
  have hcontent : bigRequestFlow.request.content =
      List.replicate (1024 * 1024 + 1) 65 := rfl
  have hne : bigRequestFlow.request.content.isEmpty = false := by
    rw [hcontent, List.replicate_succ, List.isEmpty_cons]
  rw [capturedRow_body_of_ne_nil bigRequestFlow 0 1 hne, hcontent,
    utf8DecodeIgnore_replicate_length]
  omega

/-- C3 (amended): only the proxy-path response body is capped — a
response body of 1 MiB or more is stored as the placeholder string naming
the byte count, one under the cap is stored decoded (never longer than
the cap); request bodies in both capture paths and the response body in
the traffic_analyzer path are stored at full decoded length with no cap
or placeholder. -/
theorem C3_only_proxy_response_capped :
    (∀ (flow : HFlow) (r : HResponse) (now : Int) (rowId : Nat),
      flow.response = some r →
      (1024 * 1024 ≤ r.content.length →
        (ProxyServer.capturedRow flow now rowId).response_body =
          ("[Response too large: " ++ toString r.content.length ++ " bytes]").data)
      ∧ (r.content.length < 1024 * 1024 →
        (ProxyServer.capturedRow flow now rowId).response_body =
          (if r.content.isEmpty then [] else utf8DecodeIgnore r.content)
        ∧ (ProxyServer.capturedRow flow now rowId).response_body.length ≤
            1024 * 1024))
    ∧ (∀ (flow : HFlow) (now : Int) (rowId : Nat),
      (ProxyServer.capturedRow flow now rowId).body =
        (if flow.request.content.isEmpty then []
          else utf8DecodeIgnore flow.request.content)
      ∧ (TrafficAnalyzer.capturedRow flow now rowId).body =
        (if flow.request.content.isEmpty then []
          else utf8DecodeIgnore flow.request.content))
    ∧ (∀ (flow : HFlow) (r : HResponse) (now : Int) (rowId : Nat),
      flow.response = some r →
      (TrafficAnalyzer.capturedRow flow now rowId).response_body =
        (if r.content.isEmpty then [] else utf8DecodeIgnore r.content)) := by
  refine ⟨?_, ?_, ?_⟩
  · intro flow r now rowId hresp
    have hbody : (ProxyServer.capturedRow flow now rowId).response_body =
        (if r.content.isEmpty then []
          else if r.content.length < 1024 * 1024 then utf8DecodeIgnore r.content
          else ("[Response too large: " ++ toString r.content.length ++
            " bytes]").data) := by
      simp [ProxyServer.capturedRow, hresp]
    constructor
    · intro hbig
      rw [hbody]
      split
      · rename_i hcond
        have hnil : r.content = [] := by
          cases hc : r.content with
          | nil => rfl
          | cons a l => rw [hc] at hcond; simp at hcond
        rw [hnil] at hbig
        simp at hbig
      · split
        · rename_i hlt
          omega
        · rfl
    · intro hsmall
      rw [hbody]
      cases hc : r.content.isEmpty with
      | true => simp
      | false =>
        constructor
        · simp [hsmall]
        · have hle := utf8DecodeIgnore_length_le r.content
          simp only [Bool.false_eq_true, if_false, if_pos hsmall]
          omega
  · intro flow now rowId
    exact ⟨rfl, rfl⟩
  · intro flow r now rowId hresp
    simp [TrafficAnalyzer.capturedRow, hresp]

/-- C3 witness: the amended theorem applied to the 1 MiB response flow
(placeholder branch) and to the over-cap request flow (uncapped request
body). -/
theorem C3_witness :
    (bigResponseFlow.response =
        some { status_code := 200, headers := []
               content := List.replicate (1024 * 1024) 66 }
      ∧ 1024 * 1024 ≤ ((List.replicate (1024 * 1024) 66 : List Nat)).length)
    ∧ (ProxyServer.capturedRow bigResponseFlow 0 1).response_body =
        ("[Response too large: " ++
          toString ((List.replicate (1024 * 1024) 66 : List Nat)).length ++
          " bytes]").data :=
  ⟨⟨rfl, le_of_eq (List.length_replicate _ _).symm⟩,
    (C3_only_proxy_response_capped.1 bigResponseFlow
      { status_code := 200, headers := []
        content := List.replicate (1024 * 1024) 66 } 0 1 rfl).1
      (le_of_eq (List.length_replicate _ _).symm)⟩

/-- A flow whose request body starts with an invalid UTF-8 byte. -/
def invalidByteFlow : HFlow :=
  { request :=
      { method := "POST", url := "http://e.com/a", host := "e.com"
        path := "/a", scheme := "http", headers := [], content := [255, 65] }
    response := some { status_code := 200, headers := [], content := [79, 107] }
    start_time := some 0 }

/-- C4 counterexample: a request body containing the invalid byte 0xFF is
stored as just "A" — the invalid byte is silently dropped by
`errors="ignore"`, so `get(id)` cannot return the original body and no
replacement character or base64 marker is recorded. -/
theorem C4_counterexample :
    invalidByteFlow.request.content = [255, 65]
    ∧ (ProxyServer.get_request_detail
        (ProxyServer.response Store.empty invalidByteFlow 0) 1).map
        (fun r => r.body) = some ['A']
    ∧ utf8Encode ['A'] ≠ [255, 65] := by
  decide

/-- C4 (amended): for bodies whose bytes survive the decode-reencode
round trip (in particular any valid UTF-8 text) and responses under the
size cap, `get(id)` directly after capture returns the exact original
fields — method, url, host, path, scheme, headers, status, response
headers, and both bodies up to UTF-8 decoding; bytes that do not decode
are silently dropped, not replaced or base64-marked. -/
theorem C4_get_roundtrip (db : Store) (flow : HFlow) (r : HResponse) (now : Int)
    (hwf : ∀ x ∈ db.rows, x.id ≠ db.nextId)
    (hresp : flow.response = some r)
    (hreq : utf8Encode (utf8DecodeIgnore flow.request.content) =
      flow.request.content)
    (hrc : utf8Encode (utf8DecodeIgnore r.content) = r.content)
    (hsmall : r.content.length < 1024 * 1024) :
    (ProxyServer.get_request_detail (ProxyServer.response db flow now)
        db.nextId).map
      (fun row => (row.method, row.url, row.host, row.path, row.protocol,
        row.headers, row.response_status, row.response_headers,
        utf8Encode row.body, utf8Encode row.response_body)) =
    some (flow.request.method, flow.request.url, flow.request.host,
      flow.request.path, flow.request.scheme, some flow.request.headers,
      some r.status_code, some r.headers, flow.request.content, r.content) := by
  have hfind : (ProxyServer.response db flow now).rows.find?
      (fun x => x.id == db.nextId) =
      some (ProxyServer.capturedRow flow now db.nextId) := by
    show (db.rows ++ [ProxyServer.capturedRow flow now db.nextId]).find?
      (fun x => x.id == db.nextId) = _
    rw [find?_append_of_none]
    · simp [ProxyServer.capturedRow]
    · rw [List.find?_eq_none]
      intro x hx
      simp [hwf x hx]
  unfold ProxyServer.get_request_detail
  rw [hfind]
  simp only [Option.map_some', Option.some.injEq, Prod.mk.injEq]
  refine ⟨rfl, rfl, rfl, rfl, rfl, rfl, ?_, ?_, ?_, ?_⟩
  · show flow.response.map (fun r => r.status_code) = some r.status_code
    rw [hresp]; rfl
  · show some (match flow.response with | some r => r.headers | none => []) =
      some r.headers
    rw [hresp]
  · cases hc : flow.request.content with
    | nil =>
      have hb : (ProxyServer.capturedRow flow now db.nextId).body = [] := by
        simp [ProxyServer.capturedRow, hc]
      rw [hb]
      rfl
    | cons a l =>
      rw [capturedRow_body_of_ne_nil flow now db.nextId (by rw [hc]; rfl), hreq]
      exact hc
  · cases hc : r.content with
    | nil =>
      have hb : (ProxyServer.capturedRow flow now db.nextId).response_body = [] := by
        simp [ProxyServer.capturedRow, hresp, hc]
      rw [hb]
      rfl
    | cons a l =>
      rw [capturedRow_response_body_small flow r now db.nextId hresp
        (by rw [hc]; rfl) hsmall, hrc]
      exact hc

/-- A small all-ASCII flow for exercising the round-trip theorem. -/
def asciiFlow : HFlow :=
  { request :=
      { method := "POST", url := "http://e.com/hi", host := "e.com"
        path := "/hi", scheme := "http"
        headers := [("Content-Type", "text/plain")], content := [72, 105] }
    response := some
      { status_code := 201, headers := [("Server", "nginx")]
        content := [79, 107] }
    start_time := some 2 }

/-- C4 witness: the amended round-trip theorem applied to a concrete
ASCII exchange captured into the empty store. -/
theorem C4_witness :
    ((∀ x ∈ Store.empty.rows, x.id ≠ Store.empty.nextId)
      ∧ utf8Encode (utf8DecodeIgnore asciiFlow.request.content) =
          asciiFlow.request.content
      ∧ utf8Encode (utf8DecodeIgnore [79, 107]) = [79, 107]
      ∧ ([79, 107] : List Nat).length < 1024 * 1024)
    ∧ (ProxyServer.get_request_detail
        (ProxyServer.response Store.empty asciiFlow 3) Store.empty.nextId).map
      (fun row => (row.method, row.url, row.host, row.path, row.protocol,
        row.headers, row.response_status, row.response_headers,
        utf8Encode row.body, utf8Encode row.response_body)) =
    some (asciiFlow.request.method, asciiFlow.request.url,
      asciiFlow.request.host, asciiFlow.request.path,
      asciiFlow.request.scheme, some asciiFlow.request.headers,
      some 201, some [("Server", "nginx")], asciiFlow.request.content,
      [79, 107]) :=
  ⟨⟨by simp [Store.empty], by decide, by decide, by decide⟩,
    C4_get_roundtrip Store.empty asciiFlow
      { status_code := 201, headers := [("Server", "nginx")], content := [79, 107] }
      3 (by simp [Store.empty]) rfl (by decide) (by decide) (by decide)⟩

/-- A successful scan loop contains the analysis of every selected row. -/
theorem analyzeAll_mem_of {db : Store} :
    ∀ {rows : List Row} {l : List CopilotAgent.RequestAnalysis} {r : Row}
      {a : CopilotAgent.RequestAnalysis},
      CopilotAPI.analyzeAll db rows = .ok l → r ∈ rows →
      CopilotAgent.analyze_request db r.id = .ok a → a ∈ l := by
  intro rows
  induction rows with
  | nil => intro l r a h hr ha; cases hr
  | cons r0 rs ih =>
    intro l r a h hr ha
    simp only [CopilotAPI.analyzeAll] at h
    cases h0 : CopilotAgent.analyze_request db r0.id with
    | error e => rw [h0] at h; cases h
    | ok a0 =>
      rw [h0] at h
      cases hrest : CopilotAPI.analyzeAll db rs with
      | error e => rw [hrest] at h; cases h
      | ok lrest =>
        rw [hrest] at h
        simp only [Except.ok.injEq] at h
        subst h
        rcases List.mem_cons.mp hr with rfl | hmem
        · have h2 : (Except.ok a : Except AgentError _) = Except.ok a0 :=
            ha.symm.trans h0
          obtain rfl := Except.ok.inj h2
          exact List.mem_cons_self _ _
        · exact List.mem_cons_of_mem a0 (ih hrest hmem ha)

/-- Every analysis in a successful scan loop came from a selected row. -/
theorem analyzeAll_mem {db : Store} :
    ∀ {rows : List Row} {l : List CopilotAgent.RequestAnalysis}
      {a : CopilotAgent.RequestAnalysis},
      CopilotAPI.analyzeAll db rows = .ok l → a ∈ l →
      ∃ r ∈ rows, CopilotAgent.analyze_request db r.id = .ok a := by
  intro rows
  induction rows with
  | nil =>
    intro l a h ha
    simp only [CopilotAPI.analyzeAll, Except.ok.injEq] at h
    subst h
    cases ha
  | cons r0 rs ih =>
    intro l a h ha
    simp only [CopilotAPI.analyzeAll] at h
    cases h0 : CopilotAgent.analyze_request db r0.id with
    | error e => rw [h0] at h; cases h
    | ok a0 =>
      rw [h0] at h
      cases hrest : CopilotAPI.analyzeAll db rs with
      | error e => rw [hrest] at h; cases h
      | ok lrest =>
        rw [hrest] at h
        simp only [Except.ok.injEq] at h
        subst h
        rcases List.mem_cons.mp ha with rfl | hmem
        · exact ⟨r0, List.mem_cons_self _ _, h0⟩
        · obtain ⟨r, hr, har⟩ := ih hrest hmem
          exact ⟨r, List.mem_cons_of_mem _ hr, har⟩

/-- Decomposition of a successful `security_scan`. -/
theorem security_scan_ok_inv {db : Store} {res : CopilotAPI.ScanResult}
    (h : CopilotAPI.security_scan db = .ok res) :
    ∃ analyses,
      CopilotAPI.analyzeAll db (CopilotAPI.scanRows db) = .ok analyses
      ∧ res.high_risk_requests =
        (analyses.filter (fun a => a.security_score < 70)).map
          (fun a => CopilotAPI.HighRiskEntry.mk a.request_id a.security_score
            a.vulnerabilities) := by
  unfold CopilotAPI.security_scan at h
  cases hall : CopilotAPI.analyzeAll db (CopilotAPI.scanRows db) with
  | error e => rw [hall] at h; cases h
  | ok analyses =>
    rw [hall] at h
    simp only [Except.ok.injEq] at h
    subst h
    exact ⟨analyses, rfl, rfl⟩

/-- Two example rows with well-formed header columns for the export
witness. -/
def exportRow1 : Row :=
  { id := 1, timestamp := 10, method := "GET", url := "http://a.com/x"
    host := "a.com", path := "/x", headers := some [("Accept", "*/*")]
    body := [], response_status := some 200
    response_headers := some [("Content-Type", "text/html")]
    response_body := ['h'], duration := 1, protocol := "http"
    analyzed := false, notes := none }

/-- Second export-witness row, on a zybooks host. -/
def exportRow2 : Row :=
  { id := 2, timestamp := 5, method := "POST"
    url := "https://learn.zybooks.com/y", host := "learn.zybooks.com"
    path := "/y", headers := some [], body := ['q']
    response_status := some 404, response_headers := some []
    response_body := [], duration := 2, protocol := "https"
    analyzed := false, notes := none }

/-- Export-witness store holding the two rows. -/
def exportStore : Store := ⟨3, [exportRow1, exportRow2]⟩

/-- C8: whenever a HAR export succeeds, its `log.entries` list has
exactly one entry per selected exchange — all stored rows for the API
export, the host-filtered and limited selection for the CLI export. -/
theorem C8_har_entry_count :
    (∀ (db : Store) (har : CopilotAPI.HarLog CopilotAPI.HarEntry),
      CopilotAPI.export_har db = .ok har →
      har.entries.length = db.rows.length)
    ∧ (∀ (db : Store) (zb : Bool) (limit : Nat)
        (har : CopilotAPI.HarLog TrafficAnalyzer.TAHarEntry),
      TrafficAnalyzer.export_har db zb limit = .ok har →
      har.entries.length = (TrafficAnalyzer.selectedRows db zb limit).length) := by
  constructor
  · intro db har h
    unfold CopilotAPI.export_har at h
    cases hb : buildEntries CopilotAPI.mkHarEntry (sortByTsAsc db.rows) with
    | error e => rw [hb] at h; cases h
    | ok es =>
      rw [hb] at h
      simp only [Except.ok.injEq] at h
      subst h
      show es.length = db.rows.length
      rw [buildEntries_length hb, length_sortByTsAsc]
  · intro db zb limit har h
    unfold TrafficAnalyzer.export_har at h
    cases hb : buildEntries TrafficAnalyzer.mkHarEntry
        (TrafficAnalyzer.selectedRows db zb limit) with
    | error e => rw [hb] at h; cases h
    | ok es =>
      rw [hb] at h
      simp only [Except.ok.injEq] at h
      subst h
      exact buildEntries_length hb

/-- C8 witness: both export paths applied to the two-row store (the CLI
path with the zybooks-only filter, which selects one row). -/
theorem C8_witness :
    (CopilotAPI.export_har exportStore).toOption.map
      (fun h => h.entries.length) = some exportStore.rows.length
    ∧ (TrafficAnalyzer.export_har exportStore true 10).toOption.map
      (fun h => h.entries.length) =
      some (TrafficAnalyzer.selectedRows exportStore true 10).length := by
  constructor
  · cases hq : CopilotAPI.export_har exportStore with
    | error e =>
      have hok : (CopilotAPI.export_har exportStore).toOption.isSome = true := by
        decide
      rw [hq] at hok
      exact Bool.noConfusion hok
    | ok har =>
      have hl := C8_har_entry_count.1 exportStore har hq
      exact congrArg some hl
  · cases hq : TrafficAnalyzer.export_har exportStore true 10 with
    | error e =>
      have hok : (TrafficAnalyzer.export_har exportStore true 10).toOption.isSome
          = true := by decide
      rw [hq] at hok
      exact Bool.noConfusion hok
    | ok har =>
      have hl := C8_har_entry_count.2 exportStore true 10 har hq
      exact congrArg some hl

/-- C10: in a successful `security_scan`, an analyzed exchange is listed
in `high_risk_requests` exactly when its per-exchange score is strictly
below 70, which under the score formula is exactly when it has at least
4 security findings; exchanges with 3 or fewer findings are never
listed. -/
theorem C10_high_risk_iff (db : Store) (res : CopilotAPI.ScanResult)
    (h : CopilotAPI.security_scan db = .ok res) :
    (∀ e ∈ res.high_risk_requests, e.score < 70 ∧ 4 ≤ e.issues.length)
    ∧ (∀ r ∈ CopilotAPI.scanRows db, ∀ a,
        CopilotAgent.analyze_request db r.id = .ok a →
        ((CopilotAPI.HighRiskEntry.mk a.request_id a.security_score
            a.vulnerabilities ∈ res.high_risk_requests)
          ↔ a.security_score < 70)
        ∧ (a.security_score < 70 ↔ 4 ≤ a.vulnerabilities.length)) := by
  obtain ⟨analyses, hall, hhr⟩ := security_scan_ok_inv h
  constructor
  · intro e he
    rw [hhr] at he
    simp only [List.mem_map, List.mem_filter] at he
    obtain ⟨a, ⟨hmem, hlt⟩, rfl⟩ := he
    have hlt' : a.security_score < 70 := by simpa using hlt
    obtain ⟨r, hr, har⟩ := analyzeAll_mem hall hmem
    have hscore := (analyze_request_ok_inv har).2
    refine ⟨hlt', ?_⟩
    rw [hscore] at hlt'
    exact (score_lt_70_iff _).mp hlt'
  · intro r hr a har
    have hscore := (analyze_request_ok_inv har).2
    have hmem := analyzeAll_mem_of hall hr har
    constructor
    · constructor
      · intro hin
        rw [hhr] at hin
        simp only [List.mem_map, List.mem_filter] at hin
        obtain ⟨b, ⟨hbmem, hblt⟩, heq⟩ := hin
        have hbs : b.security_score = a.security_score :=
          congrArg CopilotAPI.HighRiskEntry.score heq
        have hblt' : b.security_score < 70 := by simpa using hblt
        omega
      · intro hlt
        rw [hhr]
        simp only [List.mem_map, List.mem_filter]
        exact ⟨a, ⟨hmem, by simpa using hlt⟩, rfl⟩
    · rw [hscore]
      exact score_lt_70_iff _

/-- C10 witness: the classification theorem applied to the §8 scenario
store, whose single exchange has 5 findings and score 50 and is listed as
high risk. -/
theorem C10_witness :
    (ProxyServer.capturedRow scenarioFlow 0 1 ∈ CopilotAPI.scanRows scenarioStore)
    ∧ (match CopilotAgent.analyze_request scenarioStore 1,
         CopilotAPI.security_scan scenarioStore with
       | .ok a, .ok res =>
         ((CopilotAPI.HighRiskEntry.mk a.request_id a.security_score
             a.vulnerabilities ∈ res.high_risk_requests)
           ↔ a.security_score < 70)
         ∧ (a.security_score < 70 ↔ 4 ≤ a.vulnerabilities.length)
       | _, _ => False) := by
  constructor
  · decide
  · cases ha : CopilotAgent.analyze_request scenarioStore 1 with
    | error e =>
      have hok : (CopilotAgent.analyze_request scenarioStore 1).toOption.isSome
          = true := by decide
      rw [ha] at hok
      exact Bool.noConfusion hok
    | ok a =>
      cases hs : CopilotAPI.security_scan scenarioStore with
      | error e =>
        have hok : (CopilotAPI.security_scan scenarioStore).toOption.isSome
            = true := by decide
        rw [hs] at hok
        exact Bool.noConfusion hok
      | ok res =>
        exact (C10_high_risk_iff scenarioStore res hs).2
          (ProxyServer.capturedRow scenarioFlow 0 1) (by decide) a ha
